import Mathlib

/-!
Shallow embedding of the closure-composition and importance-sampling engine of
`src/appleseed/renderer/kernel/shading/closures.cpp` (appleseed renderer).

Floating-point scalars (`float`, `foundation::Color3f`) are embedded as exact
rationals; machine arithmetic on them in the source is translated to the
corresponding exact arithmetic.  Byte sizes and capacities are natural numbers.
Fallible operations (`throw ExceptionOSLRuntimeError`) return `Except`.
-/

namespace Renderer

/-- An RGB color, modelling `foundation::Color3f`. -/
structure Color3 where
  r : ℚ
  g : ℚ
  b : ℚ
deriving DecidableEq, Repr

/-- Channel-wise product, modelling `Color3f * Color3f`. -/
instance : Mul Color3 where
  mul a b := ⟨a.r * b.r, a.g * b.g, a.b * b.b⟩

/-- Channel-wise sum, modelling `Color3f + Color3f`. -/
instance : Add Color3 where
  add a b := ⟨a.r + b.r, a.g + b.g, a.b + b.b⟩

/-- The gray color `Color3f(x)` with all three channels equal. -/
def Color3.const (x : ℚ) : Color3 := ⟨x, x, x⟩

/-- Division of a color by a scalar, modelling `Color3f / float`. -/
def Color3.divScalar (c : Color3) (x : ℚ) : Color3 := ⟨c.r / x, c.g / x, c.b / x⟩

/-- Modelled from the spec: `foundation::luminance` for `Color3f`
(`foundation/image/colorspace.h`, not part of the excerpt) is the Rec. 709
relative luminance, a fixed positive-coefficient linear combination of the
three channels. -/
def luminance (c : Color3) : ℚ :=
  (212671 / 1000000) * c.r + (715160 / 1000000) * c.g + (72169 / 1000000) * c.b

/-- Modelled from the spec: `foundation::max_value` for `Color3f`
(not part of the excerpt) is the maximum single channel. -/
def maxValue (c : Color3) : ℚ := max c.r (max c.g c.b)

/-- `foundation::clamp`. -/
def clampQ (x lo hi : ℚ) : ℚ := min (max x lo) hi

/-- `foundation::saturate`: clamp to `[0, 1]`. -/
def saturate (x : ℚ) : ℚ := clampQ x 0 1

/-- A 3-vector, modelling `foundation::Vector3f`. -/
structure Vector3 where
  x : ℚ
  y : ℚ
  z : ℚ
deriving DecidableEq, Repr

/-- `foundation::square_norm`. -/
def squareNorm (v : Vector3) : ℚ := v.x * v.x + v.y * v.y + v.z * v.z

/-- The zero vector, `Vector3f(0.0f)`. -/
def Vector3.zero : Vector3 := ⟨0, 0, 0⟩

/-- The closure type ids of `closures.h` (the header is not part of the
excerpt; the constructors are exactly the `ClosureID` enumerators used by
`closures.cpp`). -/
inductive ClosureID where
  | AlSurfaceLayerID
  | AshikhminShirleyID
  | BackgroundID
  | DebugID
  | DiffuseID
  | DisneyID
  | EmissionID
  | GlassID
  | GlassGGXID
  | GlassBeckmannID
  | GlossyID
  | GlossyGGXID
  | GlossyBeckmannID
  | HoldoutID
  | MetalID
  | MetalGGXID
  | MetalBeckmannID
  | OrenNayarID
  | PhongID
  | ReflectionID
  | SheenID
  | SubsurfaceID
  | SubsurfaceBetterDipoleID
  | SubsurfaceStandardDipoleID
  | SubsurfaceDirectionalDipoleID
  | SubsurfaceNormalizedDiffusionID
  | TranslucentID
  | TransparentID
deriving DecidableEq, Repr

/-- Modelled from the spec: ids at or above `FirstLayeredClosure` denote
"layered" kinds whose parameter block embeds a reference to another tree.
`AlSurfaceLayerID` is the only layered closure registered by this source
file. -/
def ClosureID.isLayered : ClosureID → Bool
  | .AlSurfaceLayerID => true
  | _ => false

/-- A shading basis, modelling `foundation::Basis3f`.  The source builds bases
by normalizing float vectors (`Basis3f(normalize(n), t)`); the normalization
is square-root arithmetic that no verified claim observes, so a constructed
basis is represented symbolically by the vectors defining it. -/
inductive Basis3 where
  /-- An externally supplied frame (the fallback geometric shading basis). -/
  | external (tag : ℕ)
  /-- `Basis3f(normalize n, orig.get_tangent_u())`: built from a nonzero
  normal, reusing the original basis's tangent direction as a hint. -/
  | fromNormal (n : Vector3) (orig : Basis3)
  /-- `Basis3f(normalize n, normalize t)`: built from a nonzero normal and a
  nonzero tangent. -/
  | fromNormalAndTangent (n t : Vector3)
deriving DecidableEq, Repr

/-- `CompositeClosure::compute_closure_shading_basis(normal, basis)`
(normal-only overload). -/
def computeClosureShadingBasisN (normal : Vector3) (orig : Basis3) : Basis3 :=
  if squareNorm normal ≠ 0 then
    .fromNormal normal orig
  else
    -- Fallback to the original shading basis if the normal is zero.
    orig

/-- `CompositeClosure::compute_closure_shading_basis(normal, tangent, basis)`. -/
def computeClosureShadingBasisNT (normal tangent : Vector3) (orig : Basis3) : Basis3 :=
  if squareNorm tangent ≠ 0 then
    if squareNorm normal ≠ 0 then
      .fromNormalAndTangent normal tangent
    else
      -- Fallback to the original shading basis if the normal is zero.
      orig
  else
    -- If the tangent is zero, ignore it.
    computeClosureShadingBasisN normal orig

/-- The per-closure `Params` structs of `closures.cpp`.  `emptyParams` stands
for the empty parameter blocks (background, debug, emission, holdout,
transparent).  For the layered `alSurfaceLayer` block, the leading
`LayeredClosureBaseParams::substrate` pointer is modelled as a separate
field of the leaf node (`ClosureTree.comp`) so that the tree type stays a
plain inductive; the remaining fields are here. -/
inductive ClosureParams where
  | emptyParams
  | ashikhminShirley (N T : Vector3) (diffuseReflectance glossyReflectance : Color3)
      (exponentU exponentV fresnelMultiplier : ℚ)
  | diffuse (N : Vector3)
  | disney (N T : Vector3) (baseColor : Color3)
      (subsurface metallic specular specularTint anisotropic roughness
       sheen sheenTint clearcoat clearcoatGloss : ℚ)
  | glass (dist : String) (N T : Vector3)
      (surfaceTransmittance reflectionTint refractionTint : Color3)
      (roughness anisotropy ior : ℚ) (volumeTransmittance : Color3)
      (volumeTransmittanceDistance : ℚ)
  | glossy (dist : String) (N T : Vector3) (roughness anisotropy ior : ℚ)
  | metal (dist : String) (N T : Vector3) (normalReflectance edgeTint : Color3)
      (roughness anisotropy : ℚ)
  | orenNayar (N : Vector3) (roughness : ℚ)
  | phong (N : Vector3) (exponent : ℚ)
  | reflection (N : Vector3) (ior : ℚ)
  | sheen (N : Vector3)
  | subsurface (profile : String) (N : Vector3) (reflectance meanFreePath : Color3) (ior : ℚ)
  | translucent (N : Vector3)
  | alSurfaceLayer (distribution : Int) (N T : Vector3)
      (reflectance : Color3) (roughness anisotropy : ℚ) (fresnelMode : Int) (ior : ℚ)
      (normalReflectance edgeTint : Color3)
deriving DecidableEq, Repr

/-- Models the OSL closure tree (`OSL::ClosureColor`): a `MUL` node scales a
child by a color weight, an `ADD` node combines two children, and any other
node is a `ClosureComponent` leaf with a closure id, a color weight `w`, and
a type-specific parameter block.  A null `ClosureColor*` pointer is
modelled by the `null` node.  The `substrate` field of a leaf models the
`LayeredClosureBaseParams::substrate` pointer at the head of a layered
closure's parameter block (`get_nested_closure_color` reads it); it is
`null` for non-layered parameter blocks. -/
inductive ClosureTree where
  | null
  | mul (weight : Color3) (child : ClosureTree)
  | add (closureA closureB : ClosureTree)
  | comp (id : ClosureID) (w : Color3) (params : ClosureParams)
      (substrate : ClosureTree)
deriving DecidableEq, Repr

/-- The typed parameter records bump-allocated into the pool
(`*InputValues` structs), with the fields the conversion callbacks write.
`alSurfaceLayerBRDF.oslBsdf` models the `m_osl_bsdf` handle left empty at
conversion time (`0`, i.e. `none`); its `substrate` field models the copied
raw substrate reference `values->m_substrate = p->substrate`. -/
inductive InputValues where
  | ashikhmin (rd : Color3) (rdMultiplier : ℚ) (rg : Color3) (rgMultiplier : ℚ)
      (nu nv frMultiplier : ℚ)
  | orenNayar (reflectance : Color3) (reflectanceMultiplier roughness : ℚ)
  | disney (baseColor : Color3)
      (subsurface metallic specular specularTint anisotropic roughness
       sheen sheenTint clearcoat clearcoatGloss : ℚ)
  | glass (surfaceTransmittance : Color3) (surfaceTransmittanceMultiplier : ℚ)
      (reflectionTint refractionTint : Color3) (roughness anisotropy ior : ℚ)
      (volumeTransmittance : Color3) (volumeTransmittanceDistance : ℚ)
  | glossy (reflectance : Color3) (reflectanceMultiplier roughness anisotropy ior : ℚ)
  | metal (normalReflectance edgeTint : Color3) (reflectanceMultiplier roughness anisotropy : ℚ)
  | sheen (reflectance : Color3) (reflectanceMultiplier : ℚ)
  | diffuseBTDF (transmittance : Color3) (transmittanceMultiplier : ℚ)
  | diffuseEDF (radiance : Color3) (radianceMultiplier : ℚ)
  | dipoleBSSRDF (weight : ℚ) (reflectance : Color3) (reflectanceMultiplier : ℚ)
      (mfp : Color3) (mfpMultiplier g ior : ℚ)
  | normalizedDiffusionBSSRDF (weight : ℚ) (reflectance : Color3)
      (reflectanceMultiplier : ℚ) (mfp : Color3) (mfpMultiplier ior : ℚ)
  | alSurfaceLayerBRDF (substrate : ClosureTree) (oslBsdf : Option ℕ)
      (distribution : Int) (reflectance : Color3) (roughness anisotropy : ℚ)
      (fresnelMode : Int) (ior : ℚ) (normalReflectance edgeTint : Color3)
deriving DecidableEq, Repr

/-- The record types of the pool, used to key the layout-dependent
`sizeof(InputValues)` of each record. -/
inductive IVKind where
  | ashikhmin | orenNayar | disney | glass | glossy | metal | sheen
  | diffuseBTDF | diffuseEDF | dipoleBSSRDF | normalizedDiffusionBSSRDF
  | alSurfaceLayerBRDF
deriving DecidableEq, Repr

/-- The record type of an `InputValues` value. -/
def InputValues.kind : InputValues → IVKind
  | .ashikhmin .. => .ashikhmin
  | .orenNayar .. => .orenNayar
  | .disney .. => .disney
  | .glass .. => .glass
  | .glossy .. => .glossy
  | .metal .. => .metal
  | .sheen .. => .sheen
  | .diffuseBTDF .. => .diffuseBTDF
  | .diffuseEDF .. => .diffuseEDF
  | .dipoleBSSRDF .. => .dipoleBSSRDF
  | .normalizedDiffusionBSSRDF .. => .normalizedDiffusionBSSRDF
  | .alSurfaceLayerBRDF .. => .alSurfaceLayerBRDF

/-- Modelled from the spec: the fixed capacity constants of `closures.h`
(`MaxClosureEntries`, `MaxPoolSize`, `InputValuesAlignment`) and the
machine-layout record sizes (`sizeof`), none of which are part of the
excerpt; the spec only says they are fixed constants bounding per-evaluation
memory use. -/
structure Limits where
  maxEntries : ℕ
  maxPoolBytes : ℕ
  alignment : ℕ
  sizeOfIV : IVKind → ℕ

/-- `foundation::align(size, alignment)`: round `size` up to the next
multiple of `alignment` (`foundation/utility/memory.h`, not part of the
excerpt). -/
def alignUp (size alignment : ℕ) : ℕ := ((size + alignment - 1) / alignment) * alignment

/-- The errors thrown as `ExceptionOSLRuntimeError` by this source file:
capacity exhaustion, and an unrecognized enumerated string parameter. -/
inductive OslRuntimeError where
  | capacityExceeded
  | unrecognizedVariant (msg : String)
deriving DecidableEq, Repr

/-- The state of a `CompositeClosure`: the parallel fixed-capacity arrays are
modelled as lists of their written cells, `numClosures` models
`m_num_closures` and `numBytes` models `m_num_bytes` (the bump-allocation
watermark of the pool). -/
structure CompositeClosure where
  numClosures : ℕ
  pdfWeights : List ℚ
  cdf : List ℚ
  weights : List Color3
  bases : List Basis3
  closureTypes : List ClosureID
  inputValues : List InputValues
  numBytes : ℕ

/-- `CompositeClosure::CompositeClosure()`: empty composite. -/
def CompositeClosure.empty : CompositeClosure := ⟨0, [], [], [], [], [], [], 0⟩

/-- Running sums of a list starting from accumulator `acc`: element `i` is
`acc` plus the sum of the first `i + 1` list elements. -/
def runningSums (acc : ℚ) : List ℚ → List ℚ
  | [] => []
  | w :: ws => (acc + w) :: runningSums (acc + w) ws

/-- Prefix sums: element `i` is the sum of the first `i + 1` elements.  This
is what the first loop of `CompositeClosure::compute_cdf` stores into
`m_cdf` (with `total_weight` its final accumulator value, i.e. the sum). -/
def prefixSums (ws : List ℚ) : List ℚ := runningSums 0 ws

/-- `CompositeClosure::compute_cdf()`.  For one closure, pdf weight and cdf
are both `1`.  For more, the first loop prefix-sums the pdf weights into
`m_cdf` and accumulates `total_weight`; the next loops scale the pdf weights
and the first `n - 1` cdf entries by `rcp_total_weight = 1 / total_weight`;
the last cdf entry is set to exactly `1`.  Zero closures: no-op. -/
def CompositeClosure.computeCdf (s : CompositeClosure) : CompositeClosure :=
  if s.numClosures = 1 then
    { s with pdfWeights := [1], cdf := [1] }
  else if 1 < s.numClosures then
    let sums := prefixSums s.pdfWeights
    let totalWeight := s.pdfWeights.sum
    let rcpTotalWeight := 1 / totalWeight
    { s with
      pdfWeights := s.pdfWeights.map (fun w => w * rcpTotalWeight),
      cdf := sums.dropLast.map (fun c => c * rcpTotalWeight) ++ [1] }
  else s

/-- Modelled from the spec: `foundation::sample_cdf_linear_search`
(`foundation/math/cdf.h`, not part of the excerpt) returns the smallest
index whose cdf value is `≥` the sample. -/
def sampleCdfLinearSearch (cdf : List ℚ) (u : ℚ) : ℕ :=
  match cdf with
  | [] => 0
  | c :: rest => if u ≤ c then 0 else 1 + sampleCdfLinearSearch rest u

/-- Models `renderer::SamplingContext`: a deterministic, resumable random
sequence.  `seq` is the underlying sample stream and `pos` the position of
the next scalar; `split_in_place(1, 1)` followed by `next2<float>()` draws
the scalar at `pos` and advances the sequence by one. -/
structure SamplingContext where
  seq : ℕ → ℚ
  pos : ℕ

/-- `SamplingContext::next2<float>()` after `split_in_place(1, 1)`: draw one
scalar and advance. -/
def SamplingContext.next2 (c : SamplingContext) : ℚ × SamplingContext :=
  (c.seq c.pos, { c with pos := c.pos + 1 })

/-- `CompositeClosure::choose_closure(const float w)`: linear cdf search. -/
def CompositeClosure.chooseClosureU (s : CompositeClosure) (w : ℚ) : ℕ :=
  sampleCdfLinearSearch s.cdf w

/-- `CompositeClosure::choose_closure(SamplingContext&)`: with a single
closure return index `0` immediately; otherwise draw one scalar from the
sampling context and delegate to the scalar overload. -/
def CompositeClosure.chooseClosure (s : CompositeClosure) (ctx : SamplingContext) :
    ℕ × SamplingContext :=
  if s.numClosures = 1 then
    (0, ctx)
  else
    let (u, ctx2) := ctx.next2
    (s.chooseClosureU u, ctx2)

/-- `CompositeClosure::do_add_closure`.  Throws `capacityExceeded` when the
entry count has reached `MaxClosureEntries`; the pool bound
`m_num_bytes + sizeof(InputValues) <= MaxPoolSize` is only a debug-time
`assert` in the source, with no runtime failure path.  On success, the
luminance of the weight becomes the entry's pdf weight, the entry's shading
basis is derived from the leaf normal/tangent, the record is placed in the
pool at the aligned watermark, and the entry count grows by one.  The throw
happens before any member is written, so the failing pair returns the state
unchanged. -/
def CompositeClosure.doAddClosure (lim : Limits) (closureType : ClosureID)
    (origBasis : Basis3) (weight : Color3) (normal : Vector3)
    (hasTangent : Bool) (tangent : Vector3) (values : InputValues)
    (s : CompositeClosure) : Except OslRuntimeError Unit × CompositeClosure :=
  if lim.maxEntries ≤ s.numClosures then
    (.error .capacityExceeded, s)
  else
    -- debug-only: assert(m_num_bytes + sizeof(InputValues) <= MaxPoolSize)
    -- We use the luminance of the weight as the BSDF weight.
    let w := luminance weight
    -- debug-only: assert(w > 0.0f)
    let basis :=
      if hasTangent = false then computeClosureShadingBasisN normal origBasis
      else computeClosureShadingBasisNT normal tangent origBasis
    (.ok (), { s with
      pdfWeights := s.pdfWeights ++ [w],
      weights := s.weights ++ [weight],
      bases := s.bases ++ [basis],
      closureTypes := s.closureTypes ++ [closureType],
      inputValues := s.inputValues ++ [values],
      numBytes := s.numBytes + alignUp (lim.sizeOfIV values.kind) lim.alignment,
      numClosures := s.numClosures + 1 })

/-- `CompositeClosure::add_closure` (normal-only overload). -/
def CompositeClosure.addClosureN (lim : Limits) (closureType : ClosureID)
    (origBasis : Basis3) (weight : Color3) (normal : Vector3)
    (values : InputValues) (s : CompositeClosure) :
    Except OslRuntimeError Unit × CompositeClosure :=
  s.doAddClosure lim closureType origBasis weight normal false Vector3.zero values

/-- `CompositeClosure::add_closure` (normal-and-tangent overload). -/
def CompositeClosure.addClosureNT (lim : Limits) (closureType : ClosureID)
    (origBasis : Basis3) (weight : Color3) (normal tangent : Vector3)
    (values : InputValues) (s : CompositeClosure) :
    Except OslRuntimeError Unit × CompositeClosure :=
  s.doAddClosure lim closureType origBasis weight normal true tangent values

/-- The state of a `CompositeSurfaceClosure`: the base engine plus the IOR
distribution (`m_iors`, `m_ior_cdf`, `m_num_iors`), again with the arrays
modelled as lists of their written cells. -/
structure CompositeSurfaceClosure extends CompositeClosure where
  numIors : ℕ
  iors : List ℚ
  iorCdf : List ℚ

/-- A surface composite before any tree processing. -/
def CompositeSurfaceClosure.empty : CompositeSurfaceClosure :=
  { CompositeClosure.empty with numIors := 0, iors := [], iorCdf := [] }

/-- Re-wrap a base-engine `add_closure` result into the surface composite,
propagating a thrown exception. -/
def CompositeSurfaceClosure.liftAdd (s : CompositeSurfaceClosure)
    (r : Except OslRuntimeError Unit × CompositeClosure) :
    Except OslRuntimeError CompositeSurfaceClosure :=
  match r with
  | (.error e, _) => .error e
  | (.ok _, base) => .ok { s with toCompositeClosure := base }

/-- `CompositeSurfaceClosure::add_ior`: append the IOR and, as its weight,
the luminance of the weight color (`m_ior_cdf` holds the raw weights until
the constructor normalizes them). -/
def CompositeSurfaceClosure.addIor (s : CompositeSurfaceClosure)
    (weight : Color3) (ior : ℚ) : CompositeSurfaceClosure :=
  -- We use the luminance of the weight as the IOR weight.
  let w := luminance weight
  -- debug-only: assert(w > 0.0f)
  { s with iors := s.iors ++ [ior], iorCdf := s.iorCdf ++ [w], numIors := s.numIors + 1 }

/-- `AshikhminShirleyClosure::convert_closure`. -/
def AshikhminShirleyClosure.convertClosure (lim : Limits) (basis : Basis3)
    (p : ClosureParams) (weight : Color3) (s : CompositeSurfaceClosure) :
    Except OslRuntimeError CompositeSurfaceClosure :=
  match p with
  | .ashikhminShirley N T rd rg eu ev fr =>
      s.liftAdd (s.toCompositeClosure.addClosureNT lim .AshikhminShirleyID basis weight N T
        (.ashikhmin rd 1 rg 1 (max eu (1/100)) (max ev (1/100)) fr))
  | _ => .ok s  -- a type-punned mismatched parameter block is undefined behavior in the source

/-- `DiffuseClosure::convert_closure`: stored with closure type
`OrenNayarID`, reflectance `1`, multiplier `1` and roughness `0`. -/
def DiffuseClosure.convertClosure (lim : Limits) (basis : Basis3)
    (p : ClosureParams) (weight : Color3) (s : CompositeSurfaceClosure) :
    Except OslRuntimeError CompositeSurfaceClosure :=
  match p with
  | .diffuse N =>
      s.liftAdd (s.toCompositeClosure.addClosureN lim .OrenNayarID basis weight N
        (.orenNayar (Color3.const 1) 1 0))
  | _ => .ok s

/-- `DisneyClosure::convert_closure`. -/
def DisneyClosure.convertClosure (lim : Limits) (basis : Basis3)
    (p : ClosureParams) (weight : Color3) (s : CompositeSurfaceClosure) :
    Except OslRuntimeError CompositeSurfaceClosure :=
  match p with
  | .disney N T baseColor subsurface metallic specular specularTint anisotropic
      roughness sheen sheenTint clearcoat clearcoatGloss =>
      s.liftAdd (s.toCompositeClosure.addClosureNT lim .DisneyID basis weight N T
        (.disney baseColor (saturate subsurface) (saturate metallic)
          (max specular 0) (saturate specularTint) (clampQ anisotropic (-1) 1)
          (clampQ roughness (1/10000) 1) (saturate sheen) (saturate sheenTint)
          (max clearcoat 0) (clampQ clearcoatGloss (1/10000) 1)))
  | _ => .ok s

/-- `GlassClosure::convert_closure`: the `dist` string selects
`GlassGGXID` or `GlassBeckmannID` (any other value throws), and a
successful add is followed by `add_ior(weight, values->m_ior)`. -/
def GlassClosure.convertClosure (lim : Limits) (basis : Basis3)
    (p : ClosureParams) (weight : Color3) (s : CompositeSurfaceClosure) :
    Except OslRuntimeError CompositeSurfaceClosure :=
  match p with
  | .glass dist N T st rt rft roughness anisotropy ior vt vtd =>
      let ior2 := max ior (1/1000)
      let values : InputValues :=
        .glass st 1 rt rft (max roughness (1/10000)) (clampQ anisotropy (-1) 1) ior2 vt vtd
      if dist = "ggx" then
        (s.liftAdd (s.toCompositeClosure.addClosureNT lim .GlassGGXID basis weight N T
          values)).map (fun s3 => s3.addIor weight ior2)
      else if dist = "beckmann" then
        (s.liftAdd (s.toCompositeClosure.addClosureNT lim .GlassBeckmannID basis weight N T
          values)).map (fun s3 => s3.addIor weight ior2)
      else
        .error (.unrecognizedVariant ("invalid microfacet distribution function: " ++ dist))
  | _ => .ok s

/-- `GlossyClosure::convert_closure`. -/
def GlossyClosure.convertClosure (lim : Limits) (basis : Basis3)
    (p : ClosureParams) (weight : Color3) (s : CompositeSurfaceClosure) :
    Except OslRuntimeError CompositeSurfaceClosure :=
  match p with
  | .glossy dist N T roughness anisotropy ior =>
      let values : InputValues :=
        .glossy (Color3.const 1) 1 (max roughness 0) (clampQ anisotropy (-1) 1) (max ior (1/1000))
      if dist = "ggx" then
        s.liftAdd (s.toCompositeClosure.addClosureNT lim .GlossyGGXID basis weight N T values)
      else if dist = "beckmann" then
        s.liftAdd (s.toCompositeClosure.addClosureNT lim .GlossyBeckmannID basis weight N T values)
      else
        .error (.unrecognizedVariant ("invalid microfacet distribution function: " ++ dist))
  | _ => .ok s

/-- `MetalClosure::convert_closure`. -/
def MetalClosure.convertClosure (lim : Limits) (basis : Basis3)
    (p : ClosureParams) (weight : Color3) (s : CompositeSurfaceClosure) :
    Except OslRuntimeError CompositeSurfaceClosure :=
  match p with
  | .metal dist N T nr et roughness anisotropy =>
      let values : InputValues :=
        .metal nr et 1 (max roughness 0) (clampQ anisotropy (-1) 1)
      if dist = "ggx" then
        s.liftAdd (s.toCompositeClosure.addClosureNT lim .MetalGGXID basis weight N T values)
      else if dist = "beckmann" then
        s.liftAdd (s.toCompositeClosure.addClosureNT lim .MetalBeckmannID basis weight N T values)
      else
        .error (.unrecognizedVariant ("invalid microfacet distribution function: " ++ dist))
  | _ => .ok s

/-- `OrenNayarClosure::convert_closure`. -/
def OrenNayarClosure.convertClosure (lim : Limits) (basis : Basis3)
    (p : ClosureParams) (weight : Color3) (s : CompositeSurfaceClosure) :
    Except OslRuntimeError CompositeSurfaceClosure :=
  match p with
  | .orenNayar N roughness =>
      s.liftAdd (s.toCompositeClosure.addClosureN lim .OrenNayarID basis weight N
        (.orenNayar (Color3.const 1) 1 (max roughness 0)))
  | _ => .ok s

/-- `PhongClosure::convert_closure`: stored with closure type
`AshikhminShirleyID`. -/
def PhongClosure.convertClosure (lim : Limits) (basis : Basis3)
    (p : ClosureParams) (weight : Color3) (s : CompositeSurfaceClosure) :
    Except OslRuntimeError CompositeSurfaceClosure :=
  match p with
  | .phong N exponent =>
      s.liftAdd (s.toCompositeClosure.addClosureN lim .AshikhminShirleyID basis weight N
        (.ashikhmin (Color3.const 1) 1 (Color3.const 1) 1
          (max exponent (1/100)) (max exponent (1/100)) 1))
  | _ => .ok s

/-- `ReflectionClosure::convert_closure`: stored with closure type
`GlossyBeckmannID` and roughness `0`. -/
def ReflectionClosure.convertClosure (lim : Limits) (basis : Basis3)
    (p : ClosureParams) (weight : Color3) (s : CompositeSurfaceClosure) :
    Except OslRuntimeError CompositeSurfaceClosure :=
  match p with
  | .reflection N ior =>
      s.liftAdd (s.toCompositeClosure.addClosureN lim .GlossyBeckmannID basis weight N
        (.glossy (Color3.const 1) 1 0 0 (max ior (1/1000))))
  | _ => .ok s

/-- `SheenClosure::convert_closure`. -/
def SheenClosure.convertClosure (lim : Limits) (basis : Basis3)
    (p : ClosureParams) (weight : Color3) (s : CompositeSurfaceClosure) :
    Except OslRuntimeError CompositeSurfaceClosure :=
  match p with
  | .sheen N =>
      s.liftAdd (s.toCompositeClosure.addClosureN lim .SheenID basis weight N
        (.sheen (Color3.const 1) 1))
  | _ => .ok s

/-- `TranslucentClosure::convert_closure`. -/
def TranslucentClosure.convertClosure (lim : Limits) (basis : Basis3)
    (p : ClosureParams) (weight : Color3) (s : CompositeSurfaceClosure) :
    Except OslRuntimeError CompositeSurfaceClosure :=
  match p with
  | .translucent N =>
      s.liftAdd (s.toCompositeClosure.addClosureN lim .TranslucentID basis weight N
        (.diffuseBTDF (Color3.const 1) 1))
  | _ => .ok s

/-- `AlSurfaceLayerClosure::convert_closure`: the record keeps the raw
substrate subtree reference and leaves the bound-object field empty. -/
def AlSurfaceLayerClosure.convertClosure (lim : Limits) (basis : Basis3)
    (p : ClosureParams) (substrate : ClosureTree) (weight : Color3)
    (s : CompositeSurfaceClosure) : Except OslRuntimeError CompositeSurfaceClosure :=
  match p with
  | .alSurfaceLayer distribution N T reflectance roughness anisotropy
      fresnelMode ior nr et =>
      s.liftAdd (s.toCompositeClosure.addClosureNT lim .AlSurfaceLayerID basis weight N T
        (.alSurfaceLayerBRDF substrate none distribution reflectance roughness
          (saturate anisotropy) fresnelMode ior nr et))
  | _ => .ok s

/-- The dispatch table `g_closure_convert_funs` as populated by
`register_closures`: the registered surface conversion callbacks, and
`convert_closure_nop` (no contribution) for every other id.  In particular
`background`, `debug`, `emission`, `holdout`, `as_subsurface` and
`transparent` register with the shading system but install no surface
conversion, and the distribution-resolved ids (`GlassGGXID`, ...) are never
registered at all. -/
def surfaceConvertFun (lim : Limits) (id : ClosureID) (basis : Basis3)
    (p : ClosureParams) (substrate : ClosureTree) (weight : Color3)
    (s : CompositeSurfaceClosure) : Except OslRuntimeError CompositeSurfaceClosure :=
  match id with
  | .AlSurfaceLayerID => AlSurfaceLayerClosure.convertClosure lim basis p substrate weight s
  | .AshikhminShirleyID => AshikhminShirleyClosure.convertClosure lim basis p weight s
  | .DiffuseID => DiffuseClosure.convertClosure lim basis p weight s
  | .DisneyID => DisneyClosure.convertClosure lim basis p weight s
  | .GlassID => GlassClosure.convertClosure lim basis p weight s
  | .GlossyID => GlossyClosure.convertClosure lim basis p weight s
  | .MetalID => MetalClosure.convertClosure lim basis p weight s
  | .OrenNayarID => OrenNayarClosure.convertClosure lim basis p weight s
  | .PhongID => PhongClosure.convertClosure lim basis p weight s
  | .ReflectionID => ReflectionClosure.convertClosure lim basis p weight s
  | .SheenID => SheenClosure.convertClosure lim basis p weight s
  | .TranslucentID => TranslucentClosure.convertClosure lim basis p weight s
  | _ => .ok s  -- convert_closure_nop

/-- `CompositeSurfaceClosure::process_closure_tree`: the tree walker.  A
`MUL` node multiplies the running weight per channel and recurses into its
single child; an `ADD` node recurses into both children with the full,
un-split running weight, left then right; a component leaf computes the
effective weight and, when its luminance is strictly positive, dispatches
to the registered conversion callback. -/
def CompositeSurfaceClosure.processClosureTree (lim : Limits) :
    ClosureTree → Basis3 → Color3 → CompositeSurfaceClosure →
    Except OslRuntimeError CompositeSurfaceClosure
  | .null, _, _, s => .ok s
  | .mul cw child, basis, weight, s =>
      CompositeSurfaceClosure.processClosureTree lim child basis (weight * cw) s
  | .add a b, basis, weight, s =>
      match CompositeSurfaceClosure.processClosureTree lim a basis weight s with
      | .error e => .error e
      | .ok s1 => CompositeSurfaceClosure.processClosureTree lim b basis weight s1
  | .comp id cw p sub, basis, weight, s =>
      let w := weight * cw
      if 0 < luminance w then surfaceConvertFun lim id basis p sub w s else .ok s

/-- The in-place IOR CDF build of the `CompositeSurfaceClosure` constructor
(run only when more than one IOR entry was added): prefix-sum the weights in
place, scale all but the last by `1 / total`, and set the last to exactly
`1`. -/
def buildIorCdf (ws : List ℚ) : List ℚ :=
  let sums := prefixSums ws
  let totalWeight := ws.sum
  let rcpTotalWeight := 1 / totalWeight
  sums.dropLast.map (fun c => c * rcpTotalWeight) ++ [1]

/-- `CompositeSurfaceClosure::CompositeSurfaceClosure`: walk the tree,
compute the entry cdf, then: if no IOR entry was added, synthesize exactly
one with `ior = 1` (and return early); if more than one was added, build the
IOR CDF in place. -/
def CompositeSurfaceClosure.construct (lim : Limits) (origBasis : Basis3)
    (ci : ClosureTree) : Except OslRuntimeError CompositeSurfaceClosure :=
  match CompositeSurfaceClosure.processClosureTree lim ci origBasis (Color3.const 1)
      CompositeSurfaceClosure.empty with
  | .error e => .error e
  | .ok s1 =>
      let s2 := { s1 with toCompositeClosure := s1.toCompositeClosure.computeCdf }
      if s2.numIors = 0 then
        .ok { s2 with numIors := 1, iors := [1] }
      else if 1 < s2.numIors then
        .ok { s2 with iorCdf := buildIorCdf s2.iorCdf }
      else
        .ok s2

/-- `CompositeSurfaceClosure::choose_ior`: with one IOR entry return it
immediately, otherwise sample the IOR CDF. -/
def CompositeSurfaceClosure.chooseIor (s : CompositeSurfaceClosure) (w : ℚ) : ℚ :=
  -- debug-only: assert(m_num_iors > 0)
  if s.numIors = 1 then
    s.iors.getD 0 0
  else
    s.iors.getD (sampleCdfLinearSearch s.iorCdf w) 0

/-- `CompositeEmissionClosure` adds no fields over the base engine (and its
walker never touches `m_bases`). -/
abbrev CompositeEmissionClosure := CompositeClosure

/-- `CompositeEmissionClosure::add_closure`.  Throws `capacityExceeded` when
the entry count has reached `MaxClosureEntries` (the pool bound is again
only a debug-time `assert`); on success the caller-supplied
`max_weight_component` becomes the entry's pdf weight.  The throw happens
before any member is written. -/
def CompositeEmissionClosure.addClosure (lim : Limits) (closureType : ClosureID)
    (weight : Color3) (maxWeightComponent : ℚ) (values : InputValues)
    (s : CompositeEmissionClosure) : Except OslRuntimeError Unit × CompositeEmissionClosure :=
  if lim.maxEntries ≤ s.numClosures then
    (.error .capacityExceeded, s)
  else
    -- debug-only: assert(m_num_bytes + sizeof(InputValues) <= MaxPoolSize)
    (.ok (), { s with
      pdfWeights := s.pdfWeights ++ [maxWeightComponent],
      weights := s.weights ++ [weight],
      closureTypes := s.closureTypes ++ [closureType],
      inputValues := s.inputValues ++ [values],
      numBytes := s.numBytes + alignUp (lim.sizeOfIV values.kind) lim.alignment,
      numClosures := s.numClosures + 1 })

/-- `EmissionClosure::convert_closure`: the record stores
`radiance = weight / max_weight_component` and
`radiance_multiplier = max_weight_component`. -/
def EmissionClosure.convertClosure (lim : Limits) (_p : ClosureParams)
    (weight : Color3) (maxWeightComponent : ℚ) (s : CompositeEmissionClosure) :
    Except OslRuntimeError Unit × CompositeEmissionClosure :=
  s.addClosure lim .EmissionID weight maxWeightComponent
    (.diffuseEDF (weight.divScalar maxWeightComponent) maxWeightComponent)

/-- `CompositeEmissionClosure::process_closure_tree`.  A component leaf is
accepted only when the maximum channel of its effective weight is strictly
positive; an `emission` leaf converts, a layered leaf is transparently
unwrapped (`get_nested_closure_color` inlined: the substrate subtree
embedded in the parameter block), and every other id is ignored. -/
def CompositeEmissionClosure.processClosureTree (lim : Limits) :
    ClosureTree → Color3 → CompositeEmissionClosure →
    Except OslRuntimeError CompositeEmissionClosure
  | .null, _, s => .ok s
  | .mul cw child, weight, s =>
      CompositeEmissionClosure.processClosureTree lim child (weight * cw) s
  | .add a b, weight, s =>
      match CompositeEmissionClosure.processClosureTree lim a weight s with
      | .error e => .error e
      | .ok s1 => CompositeEmissionClosure.processClosureTree lim b weight s1
  | .comp id cw p sub, weight, s =>
      let w := weight * cw
      let maxWeightComponent := maxValue w
      if 0 < maxWeightComponent then
        if id = .EmissionID then
          match EmissionClosure.convertClosure lim p w maxWeightComponent s with
          | (.error e, _) => .error e
          | (.ok _, s1) => .ok s1
        else if id.isLayered then
          CompositeEmissionClosure.processClosureTree lim sub w s
        else .ok s
      else .ok s

/-- `CompositeEmissionClosure::CompositeEmissionClosure`: walk then compute
the cdf. -/
def CompositeEmissionClosure.construct (lim : Limits) (ci : ClosureTree) :
    Except OslRuntimeError CompositeEmissionClosure :=
  match CompositeEmissionClosure.processClosureTree lim ci (Color3.const 1)
      CompositeClosure.empty with
  | .error e => .error e
  | .ok s => .ok s.computeCdf

/-- `do_process_closure_id_tree`: read-only scalar extractor.  A `MUL` node
multiplies the accumulated color, an `ADD` node sums both children, and a
leaf returns its weight when its id equals the target id, recurses into its
embedded substrate (`get_nested_closure_color`) scaled by its own weight
when its id is layered, and returns zero otherwise. -/
def doProcessClosureIdTree : ClosureTree → ClosureID → Color3
  | .null, _ => Color3.const 0
  | .mul cw child, closureId => cw * doProcessClosureIdTree child closureId
  | .add a b, closureId =>
      doProcessClosureIdTree a closureId + doProcessClosureIdTree b closureId
  | .comp id cw _ sub, closureId =>
      if id = closureId then cw
      else if id.isLayered then
        -- Recurse inside the layered closure.
        cw * doProcessClosureIdTree sub closureId
      else Color3.const 0

/-- `process_transparency_tree`: the opacity (alpha) is one minus the
clamped luminance of the transparent-id sum. -/
def processTransparencyTree (ci : ClosureTree) : ℚ :=
  -- Convert from transparency to opacity.
  1 - saturate (luminance (doProcessClosureIdTree ci .TransparentID))

/-- `process_holdout_tree`. -/
def processHoldoutTree (ci : ClosureTree) : ℚ :=
  saturate (luminance (doProcessClosureIdTree ci .HoldoutID))

/-- `process_background_tree`. -/
def processBackgroundTree (ci : ClosureTree) : Color3 :=
  doProcessClosureIdTree ci .BackgroundID

/-- Whether the registered surface conversion for a leaf with closure id
`id` and parameter block `p` adds a composite entry: true for the ids whose
registered callback calls `add_closure` (for the distribution-selected
closures, only when the `dist` string names a recognized distribution), and
false for ids whose conversion is `convert_closure_nop` or that install no
surface conversion at all (background, debug, emission, holdout,
as_subsurface, transparent, and the distribution-resolved ids), or for a
type-punned mismatched parameter block. -/
def leafAddsEntry : ClosureID → ClosureParams → Bool
  | .AshikhminShirleyID, .ashikhminShirley .. => true
  | .DiffuseID, .diffuse _ => true
  | .DisneyID, .disney .. => true
  | .GlassID, .glass dist .. => dist = "ggx" || dist = "beckmann"
  | .GlossyID, .glossy dist .. => dist = "ggx" || dist = "beckmann"
  | .MetalID, .metal dist .. => dist = "ggx" || dist = "beckmann"
  | .OrenNayarID, .orenNayar .. => true
  | .PhongID, .phong .. => true
  | .ReflectionID, .reflection .. => true
  | .SheenID, .sheen _ => true
  | .TranslucentID, .translucent _ => true
  | .AlSurfaceLayerID, .alSurfaceLayer .. => true
  | _, _ => false

/-- A tree consisting only of leaves combined additively: no scale (`MUL`)
nodes. -/
def leavesOnly : ClosureTree → Bool
  | .null => true
  | .mul _ _ => false
  | .add a b => leavesOnly a && leavesOnly b
  | .comp _ _ _ _ => true

/-- The number of leaves of a leaves-only tree whose effective weight under
running weight `w0` has strictly positive luminance and whose conversion
adds an entry. -/
def producingLeafCount (w0 : Color3) : ClosureTree → ℕ
  | .null => 0
  | .mul _ _ => 0
  | .add a b => producingLeafCount w0 a + producingLeafCount w0 b
  | .comp id cw p _ =>
      if 0 < luminance (w0 * cw) ∧ leafAddsEntry id p = true then 1 else 0

/-- The claim's leaf count (C6 as stated): the number of leaves whose weight
metric (luminance of the effective weight) is strictly positive, regardless
of the id's registered conversion. -/
def positiveMetricLeafCount (w0 : Color3) : ClosureTree → ℕ
  | .null => 0
  | .mul _ _ => 0
  | .add a b => positiveMetricLeafCount w0 a + positiveMetricLeafCount w0 b
  | .comp _ cw _ _ => if 0 < luminance (w0 * cw) then 1 else 0

/-- Example capacity configuration used by concrete witnesses. -/
def limEx : Limits := ⟨8, 4096, 16, fun _ => 64⟩

/-- Example fallback shading basis used by concrete witnesses. -/
def basisEx : Basis3 := .external 0

/-- Example leaf normal used by concrete witnesses. -/
def nEx : Vector3 := ⟨0, 0, 1⟩

/-- Example sampling context used by concrete witnesses: a constant stream
starting at position `0`. -/
def ctxEx : SamplingContext := ⟨fun _ => 7/10, 0⟩

/-- Capacity configuration under which the pool-byte bound is violated
before the entry-count bound. -/
def limC : Limits := ⟨4, 8, 4, fun _ => 16⟩

/-- Capacity configuration with a single-entry budget. -/
def limW : Limits := ⟨1, 4096, 16, fun _ => 64⟩

/-- Concrete instance for `computeCdf_spec`: a two-entry composite with pdf
weights `[1/2, 3/2]`. -/
def cdfExample : CompositeClosure :=
  { CompositeClosure.empty with
      numClosures := 2,
      pdfWeights := [1/2, 3/2],
      closureTypes := [.OrenNayarID, .SheenID],
      inputValues := [.orenNayar (Color3.const 1) 1 0, .sheen (Color3.const 1) 1] }

/-- A one-entry composite (as produced for a single accepted leaf). -/
def singleExample : CompositeClosure :=
  { CompositeClosure.empty with
      numClosures := 1,
      pdfWeights := [1],
      cdf := [1],
      closureTypes := [.EmissionID],
      inputValues := [.diffuseEDF (Color3.const 1) 1] }

/-- Leaves-only example tree: a combine of a `diffuse` leaf (entry-adding)
and a `transparent` leaf (no-op for surfaces). -/
def c6Tree : ClosureTree :=
  .add (.comp .DiffuseID (Color3.const 1) (.diffuse nEx) .null)
       (.comp .TransparentID (Color3.const 1) .emptyParams .null)

/-- The surface composite produced by walking `c6Tree` from the empty
composite under `limEx`. -/
def c6State : CompositeSurfaceClosure :=
  { numClosures := 1,
    pdfWeights := [1],
    cdf := [],
    weights := [Color3.const 1],
    bases := [.fromNormal nEx basisEx],
    closureTypes := [.OrenNayarID],
    inputValues := [.orenNayar (Color3.const 1) 1 0],
    numBytes := 64,
    numIors := 0, iors := [], iorCdf := [] }

/-- The surface composite built from a null tree: no entries and the
synthesized vacuum IOR entry. -/
def vacuumSurface : CompositeSurfaceClosure :=
  { CompositeSurfaceClosure.empty with numIors := 1, iors := [1] }

theorem runningSums_length (acc : ℚ) (ws : List ℚ) :
    (runningSums acc ws).length = ws.length := by
  induction ws generalizing acc with
  | nil => rfl
  | cons w ws ih => simp [runningSums, ih]

theorem runningSums_chain_lt (acc : ℚ) (ws : List ℚ) (h : ∀ w ∈ ws, 0 < w) :
    List.Chain' (· < ·) (runningSums acc ws) := by
  induction ws generalizing acc with
  | nil => simp [runningSums]
  | cons w ws ih =>
    have hrec := ih (acc + w) (fun x hx => h x (List.mem_cons_of_mem _ hx))
    cases ws with
    | nil => simp [runningSums]
    | cons w2 ws2 =>
      simp only [runningSums] at hrec ⊢
      rw [List.chain'_cons]
      refine ⟨?_, hrec⟩
      have : 0 < w2 := h w2 (by simp)
      linarith

theorem runningSums_le (acc : ℚ) (ws : List ℚ) (h : ∀ w ∈ ws, 0 ≤ w) :
    ∀ x ∈ runningSums acc ws, x ≤ acc + ws.sum := by
  induction ws generalizing acc with
  | nil => simp [runningSums]
  | cons w ws ih =>
    intro x hx
    simp only [runningSums, List.mem_cons] at hx
    rcases hx with rfl | hx
    · have hs : 0 ≤ ws.sum := List.sum_nonneg (fun a ha => h a (List.mem_cons_of_mem _ ha))
      simp only [List.sum_cons]
      linarith
    · have := ih (acc + w) (fun a ha => h a (List.mem_cons_of_mem _ ha)) x hx
      simp only [List.sum_cons]
      linarith

/-- C2: for a composite with at least one entry, after `compute_cdf` the cdf
is non-decreasing and its final element is exactly `1`; with one entry the
pdf weights and cdf are both `[1]`, and with two or more entries every pdf
weight and cdf element is the prefix-normalized weight (scaled by
`1 / total`) with the final cdf element forced to exactly `1`. -/
theorem computeCdf_spec (s : CompositeClosure)
    (hlen : s.pdfWeights.length = s.numClosures)
    (hpos : ∀ w ∈ s.pdfWeights, 0 < w)
    (hne : 1 ≤ s.numClosures) :
    List.Chain' (· ≤ ·) s.computeCdf.cdf ∧
    s.computeCdf.cdf.getLast? = some 1 ∧
    (s.numClosures = 1 → s.computeCdf.pdfWeights = [1] ∧ s.computeCdf.cdf = [1]) ∧
    (2 ≤ s.numClosures →
      s.computeCdf.pdfWeights = s.pdfWeights.map (fun w => w * (1 / s.pdfWeights.sum)) ∧
      s.computeCdf.cdf =
        (prefixSums s.pdfWeights).dropLast.map (fun c => c * (1 / s.pdfWeights.sum)) ++ [1]) := by
  rcases eq_or_lt_of_le hne with h1 | h2
  · have h1 : s.numClosures = 1 := h1.symm
    simp only [CompositeClosure.computeCdf, h1, if_pos rfl]
    refine ⟨by simp, by simp, fun _ => ⟨rfl, rfl⟩, fun hc => by omega⟩
  · have hne1 : ¬ s.numClosures = 1 := by omega
    have hcdfeq :
        s.computeCdf.cdf =
          (prefixSums s.pdfWeights).dropLast.map (fun c => c * (1 / s.pdfWeights.sum)) ++ [1] := by
      simp [CompositeClosure.computeCdf, hne1, h2]
    have hpdfeq :
        s.computeCdf.pdfWeights = s.pdfWeights.map (fun w => w * (1 / s.pdfWeights.sum)) := by
      simp [CompositeClosure.computeCdf, hne1, h2]
    have hwsne : s.pdfWeights ≠ [] := by
      intro hnil
      rw [hnil] at hlen
      simp at hlen
      omega
    have htotal : 0 < s.pdfWeights.sum := List.sum_pos _ hpos hwsne
    have hrcp : 0 ≤ 1 / s.pdfWeights.sum := by positivity
    have hchain : List.Chain' (· ≤ ·)
        ((prefixSums s.pdfWeights).dropLast.map (fun c => c * (1 / s.pdfWeights.sum)) ++ [1]) := by
      refine List.Chain'.append ?_ (by simp) ?_
      · rw [List.chain'_map]
        have hlt : List.Chain' (· < ·) (prefixSums s.pdfWeights) :=
          runningSums_chain_lt 0 s.pdfWeights hpos
        have hlt2 : List.Chain' (· < ·) (prefixSums s.pdfWeights).dropLast :=
          hlt.sublist (List.dropLast_sublist _)
        exact hlt2.imp (fun a b hab => mul_le_mul_of_nonneg_right (le_of_lt hab) hrcp)
      · intro x hx y hy
        have hy1 : 1 = y := by simpa using hy
        subst hy1
        obtain ⟨hne2, hxl⟩ := List.mem_getLast?_eq_getLast hx
        have hxmem : x ∈ (prefixSums s.pdfWeights).dropLast.map
            (fun c => c * (1 / s.pdfWeights.sum)) := by
          rw [hxl]
          exact List.getLast_mem hne2
        obtain ⟨c, hc, rfl⟩ := List.mem_map.1 hxmem
        have hcmem : c ∈ prefixSums s.pdfWeights :=
          (List.dropLast_sublist _).subset hc
        have hcle : c ≤ s.pdfWeights.sum := by
          have := runningSums_le 0 s.pdfWeights (fun w hw => le_of_lt (hpos w hw)) c hcmem
          linarith
        calc c * (1 / s.pdfWeights.sum) ≤ s.pdfWeights.sum * (1 / s.pdfWeights.sum) :=
              mul_le_mul_of_nonneg_right hcle hrcp
          _ = 1 := mul_one_div_cancel (ne_of_gt htotal)
    refine ⟨by rw [hcdfeq]; exact hchain, ?_, fun hc => absurd hc hne1, fun _ => ⟨hpdfeq, hcdfeq⟩⟩
    rw [hcdfeq]
    simp

/-- Witness for `computeCdf_spec` at `cdfExample`. -/
theorem computeCdf_spec_witness :
    List.Chain' (· ≤ ·) cdfExample.computeCdf.cdf ∧
    cdfExample.computeCdf.cdf.getLast? = some 1 ∧
    (cdfExample.numClosures = 1 →
      cdfExample.computeCdf.pdfWeights = [1] ∧ cdfExample.computeCdf.cdf = [1]) ∧
    (2 ≤ cdfExample.numClosures →
      cdfExample.computeCdf.pdfWeights =
        cdfExample.pdfWeights.map (fun w => w * (1 / cdfExample.pdfWeights.sum)) ∧
      cdfExample.computeCdf.cdf =
        (prefixSums cdfExample.pdfWeights).dropLast.map
          (fun c => c * (1 / cdfExample.pdfWeights.sum)) ++ [1]) :=
  computeCdf_spec cdfExample rfl (by norm_num [cdfExample, CompositeClosure.empty]) (by norm_num [cdfExample, CompositeClosure.empty])

/-- C1 (amended): `do_add_closure` and the emission `add_closure` fail with
`capacityExceeded` exactly when the entry count has reached
`MaxClosureEntries`; otherwise they succeed.  The pool-byte bound is only a
debug-time `assert` in the source and never raises this error. -/
theorem addClosure_capacity_iff (lim : Limits) (ct : ClosureID) (ob : Basis3)
    (w : Color3) (n t : Vector3) (ht : Bool) (v : InputValues) (mw : ℚ)
    (s : CompositeClosure) :
    ((s.doAddClosure lim ct ob w n ht t v).1 = .error .capacityExceeded ↔
      lim.maxEntries ≤ s.numClosures) ∧
    (¬ lim.maxEntries ≤ s.numClosures → (s.doAddClosure lim ct ob w n ht t v).1 = .ok ()) ∧
    ((CompositeEmissionClosure.addClosure lim ct w mw v s).1 = .error .capacityExceeded ↔
      lim.maxEntries ≤ s.numClosures) ∧
    (¬ lim.maxEntries ≤ s.numClosures →
      (CompositeEmissionClosure.addClosure lim ct w mw v s).1 = .ok ()) := by
  unfold CompositeClosure.doAddClosure CompositeEmissionClosure.addClosure
  by_cases hc : lim.maxEntries ≤ s.numClosures <;> simp [hc]

/-- Witness for `addClosure_capacity_iff`: an add on an empty composite
below capacity succeeds. -/
theorem addClosure_capacity_iff_witness :
    (CompositeClosure.empty.doAddClosure limEx .OrenNayarID basisEx (Color3.const 1)
      nEx false Vector3.zero (.orenNayar (Color3.const 1) 1 0)).1 = .ok () :=
  (addClosure_capacity_iff limEx .OrenNayarID basisEx (Color3.const 1) nEx Vector3.zero
    false (.orenNayar (Color3.const 1) 1 0) 1 CompositeClosure.empty).2.1
    (by norm_num [limEx, CompositeClosure.empty])

/-- C1 counterexample: with `MaxPoolSize = 8` and a 16-byte record, adding
to an empty composite would exceed the pool bound
(`m_num_bytes + sizeof(InputValues) > MaxPoolSize`) while the entry count is
below `MaxClosureEntries`, yet `do_add_closure` succeeds instead of failing
with `capacityExceeded`: the pool bound is only a debug-time `assert`. -/
theorem addClosure_pool_overflow_counterexample :
    CompositeClosure.empty.numClosures < limC.maxEntries ∧
    limC.maxPoolBytes <
      CompositeClosure.empty.numBytes +
        limC.sizeOfIV (InputValues.orenNayar (Color3.const 1) 1 0).kind ∧
    (CompositeClosure.empty.doAddClosure limC .OrenNayarID basisEx (Color3.const 1)
      nEx false Vector3.zero (.orenNayar (Color3.const 1) 1 0)).1 = .ok () :=
  ⟨by norm_num [limC, CompositeClosure.empty], by norm_num [limC, CompositeClosure.empty, InputValues.kind], rfl⟩

/-- C3: the `ADD` (combine) case of the surface walker runs the left walk
and then, from its resulting state, the right walk, both with the full,
un-split running weight; the `MUL` (scale) case multiplies the running
weight per channel and recurses into its single child. -/
theorem processClosureTree_combine_scale (lim : Limits) (a b child : ClosureTree)
    (cw weight : Color3) (basis : Basis3) (s : CompositeSurfaceClosure) :
    (∀ s1, CompositeSurfaceClosure.processClosureTree lim a basis weight s = .ok s1 →
      CompositeSurfaceClosure.processClosureTree lim (.add a b) basis weight s =
        CompositeSurfaceClosure.processClosureTree lim b basis weight s1) ∧
    CompositeSurfaceClosure.processClosureTree lim (.mul cw child) basis weight s =
      CompositeSurfaceClosure.processClosureTree lim child basis (weight * cw) s := by
  constructor
  · intro s1 h
    simp [CompositeSurfaceClosure.processClosureTree, h]
  · simp [CompositeSurfaceClosure.processClosureTree]

/-- Witness for `processClosureTree_combine_scale`: combining a null left
subtree with a leaf hands the leaf the full running weight from the
unchanged state. -/
theorem processClosureTree_combine_scale_witness :
    CompositeSurfaceClosure.processClosureTree limEx
        (.add .null (.comp .TransparentID (Color3.const 1) .emptyParams .null))
        basisEx (Color3.const 1) CompositeSurfaceClosure.empty =
      CompositeSurfaceClosure.processClosureTree limEx
        (.comp .TransparentID (Color3.const 1) .emptyParams .null)
        basisEx (Color3.const 1) CompositeSurfaceClosure.empty :=
  (processClosureTree_combine_scale limEx .null
    (.comp .TransparentID (Color3.const 1) .emptyParams .null) .null
    (Color3.const 1) (Color3.const 1) basisEx CompositeSurfaceClosure.empty).1
    CompositeSurfaceClosure.empty (by simp [CompositeSurfaceClosure.processClosureTree])

/-- C5 (amended): with two or more entries, `choose_closure(SamplingContext&)`
draws exactly one scalar from the sequence and delegates it to the scalar
overload; with exactly one entry it returns index `0` immediately and draws
nothing. -/
theorem chooseClosure_draws (s : CompositeClosure) (ctx : SamplingContext)
    (_h : 1 ≤ s.numClosures) :
    (2 ≤ s.numClosures →
      s.chooseClosure ctx =
        (s.chooseClosureU (ctx.seq ctx.pos), { ctx with pos := ctx.pos + 1 })) ∧
    (s.numClosures = 1 → s.chooseClosure ctx = (0, ctx)) := by
  constructor
  · intro h2
    have hne1 : ¬ s.numClosures = 1 := by omega
    simp [CompositeClosure.chooseClosure, hne1, SamplingContext.next2]
  · intro h1
    simp [CompositeClosure.chooseClosure, h1]

/-- Witness for `chooseClosure_draws` at the two-entry example. -/
theorem chooseClosure_draws_witness :
    cdfExample.computeCdf.chooseClosure ctxEx =
      (cdfExample.computeCdf.chooseClosureU (ctxEx.seq ctxEx.pos),
        { ctxEx with pos := ctxEx.pos + 1 }) :=
  (chooseClosure_draws cdfExample.computeCdf ctxEx
    (by norm_num [cdfExample, CompositeClosure.computeCdf, CompositeClosure.empty])).1
    (by norm_num [cdfExample, CompositeClosure.computeCdf, CompositeClosure.empty])

/-- C5 counterexample: on a composite with exactly one entry (at least one
entry, as the claim requires), `choose_closure(SamplingContext&)` consumes
no scalar at all — the sequence position does not advance — contradicting
"draws exactly one scalar" for every composite with at least one entry. -/
theorem chooseClosure_single_counterexample :
    1 ≤ singleExample.numClosures ∧
    (singleExample.chooseClosure ctxEx).2.pos = ctxEx.pos ∧
    (singleExample.chooseClosure ctxEx).2.pos ≠ ctxEx.pos + 1 := by
  refine ⟨by norm_num [singleExample, CompositeClosure.empty], rfl, ?_⟩
  show (0 : ℕ) ≠ 0 + 1
  omega

/-- C9: once the entry count has reached `MaxClosureEntries`, a further add
(on either the base engine or the emission variant) raises
`capacityExceeded` and returns the composite state unchanged — every
previously added entry (weight, pdf weight, basis, closure type, parameter
record), the entry count and the pool byte count are exactly as before. -/
theorem addClosure_at_capacity_unchanged (lim : Limits) (ct : ClosureID) (ob : Basis3)
    (w : Color3) (n t : Vector3) (ht : Bool) (v : InputValues) (mw : ℚ)
    (s : CompositeClosure) (h : lim.maxEntries ≤ s.numClosures) :
    s.doAddClosure lim ct ob w n ht t v = (.error .capacityExceeded, s) ∧
    CompositeEmissionClosure.addClosure lim ct w mw v s = (.error .capacityExceeded, s) := by
  unfold CompositeClosure.doAddClosure CompositeEmissionClosure.addClosure
  simp [h]

/-- Witness for `addClosure_at_capacity_unchanged`: with `MaxClosureEntries
= 1` and one entry already stored, the failing add leaves the one-entry
state intact. -/
theorem addClosure_at_capacity_unchanged_witness :
    singleExample.doAddClosure limW .OrenNayarID basisEx (Color3.const 1)
        nEx false Vector3.zero (.orenNayar (Color3.const 1) 1 0) =
      (.error .capacityExceeded, singleExample) ∧
    CompositeEmissionClosure.addClosure limW .OrenNayarID (Color3.const 1) 1
        (.orenNayar (Color3.const 1) 1 0) singleExample =
      (.error .capacityExceeded, singleExample) :=
  addClosure_at_capacity_unchanged limW .OrenNayarID basisEx (Color3.const 1)
    nEx Vector3.zero false (.orenNayar (Color3.const 1) 1 0) 1 singleExample
    (by norm_num [limW, singleExample, CompositeClosure.empty])

theorem Color3.mul_def (a b : Color3) : a * b = ⟨a.r * b.r, a.g * b.g, a.b * b.b⟩ := rfl

theorem Color3.add_def (a b : Color3) : a + b = ⟨a.r + b.r, a.g + b.g, a.b + b.b⟩ := rfl

/-- C4: an emission leaf whose effective weight has a strictly positive
maximum channel is stored with that maximum channel — not the luminance —
as its pdf weight, and its record satisfies
`radiance = weight / maxChannel` and `radianceMultiplier = maxChannel`. -/
theorem emission_leaf_entry (lim : Limits) (p : ClosureParams)
    (sub : ClosureTree) (cw weight : Color3)
    (s : CompositeEmissionClosure)
    (hm : 0 < maxValue (weight * cw)) (hc : s.numClosures < lim.maxEntries) :
    CompositeEmissionClosure.processClosureTree lim (.comp .EmissionID cw p sub)
        weight s =
      .ok { s with
        pdfWeights := s.pdfWeights ++ [maxValue (weight * cw)],
        weights := s.weights ++ [weight * cw],
        closureTypes := s.closureTypes ++ [.EmissionID],
        inputValues := s.inputValues ++
          [.diffuseEDF ((weight * cw).divScalar (maxValue (weight * cw)))
            (maxValue (weight * cw))],
        numBytes := s.numBytes + alignUp (lim.sizeOfIV .diffuseEDF) lim.alignment,
        numClosures := s.numClosures + 1 } := by
  have hcap : ¬ lim.maxEntries ≤ s.numClosures := by omega
  simp only [CompositeEmissionClosure.processClosureTree]
  rw [if_pos hm]
  simp [EmissionClosure.convertClosure, CompositeEmissionClosure.addClosure, hcap,
    InputValues.kind]

/-- Witness for `emission_leaf_entry`: a single emission leaf with weight
`Color(2, 0, 0)` stores radiance `(1, 0, 0)` and radiance multiplier `2`,
with pdf weight `2`. -/
theorem emission_leaf_entry_witness :
    CompositeEmissionClosure.processClosureTree limEx
        (.comp .EmissionID ⟨2, 0, 0⟩ .emptyParams .null) (Color3.const 1)
        CompositeClosure.empty =
      .ok { CompositeClosure.empty with
        pdfWeights := [2],
        weights := [⟨2, 0, 0⟩],
        closureTypes := [.EmissionID],
        inputValues := [.diffuseEDF ⟨1, 0, 0⟩ 2],
        numBytes := 64,
        numClosures := 1 } := by
  have h := emission_leaf_entry limEx .emptyParams .null ⟨2, 0, 0⟩ (Color3.const 1)
    CompositeClosure.empty
    (by norm_num [maxValue, Color3.const, Color3.mul_def])
    (by norm_num [limEx, CompositeClosure.empty])
  rw [h]
  norm_num [maxValue, Color3.const, Color3.mul_def, Color3.divScalar, alignUp, limEx,
    CompositeClosure.empty, max_def]

/-- C8: the scalar extractor returns, at a leaf, the leaf's channel weight
when its id equals the target id, else recurses into the embedded substrate
scaled by the leaf's own weight when the id is in the layered range, else
zero; a scale node multiplies, a combine node sums; and the opacity derived
from it is one minus the clamped luminance of the transparent-id sum. -/
theorem closureIdTree_extractor_spec (t a b child sub : ClosureTree)
    (id target : ClosureID) (cw : Color3) (p : ClosureParams) :
    doProcessClosureIdTree (.comp id cw p sub) target =
      (if id = target then cw
       else if id.isLayered then cw * doProcessClosureIdTree sub target
       else Color3.const 0) ∧
    doProcessClosureIdTree (.mul cw child) target =
      cw * doProcessClosureIdTree child target ∧
    doProcessClosureIdTree (.add a b) target =
      doProcessClosureIdTree a target + doProcessClosureIdTree b target ∧
    processTransparencyTree t =
      1 - saturate (luminance (doProcessClosureIdTree t .TransparentID)) := by
  refine ⟨?_, by simp [doProcessClosureIdTree], by simp [doProcessClosureIdTree], rfl⟩
  by_cases h : id = target
  · subst h
    simp [doProcessClosureIdTree]
  · simp [doProcessClosureIdTree, h]

theorem liftAdd_ok_parts {s s2 : CompositeSurfaceClosure}
    {r : Except OslRuntimeError Unit × CompositeClosure}
    (h : s.liftAdd r = .ok s2) :
    r.1 = .ok () ∧ s2.numClosures = r.2.numClosures ∧
      s2 = { s with toCompositeClosure := r.2 } := by
  rcases r with ⟨e, base⟩
  cases e with
  | error err => simp [CompositeSurfaceClosure.liftAdd] at h
  | ok u =>
      simp only [CompositeSurfaceClosure.liftAdd, Except.ok.injEq] at h
      subst h
      exact ⟨rfl, rfl, rfl⟩

theorem liftAdd_map_addIor_parts {s s2 : CompositeSurfaceClosure} {w : Color3} {i : ℚ}
    {r : Except OslRuntimeError Unit × CompositeClosure}
    (h : (s.liftAdd r).map (fun s3 => s3.addIor w i) = .ok s2) :
    r.1 = .ok () ∧ s2.numClosures = r.2.numClosures := by
  rcases r with ⟨e, base⟩
  cases e with
  | error err => simp [CompositeSurfaceClosure.liftAdd, Except.map] at h
  | ok u =>
      simp only [CompositeSurfaceClosure.liftAdd, Except.map, Except.ok.injEq] at h
      subst h
      exact ⟨rfl, rfl⟩

theorem doAddClosure_ok_numClosures {lim : Limits} {ct : ClosureID} {ob : Basis3}
    {w : Color3} {n t : Vector3} {ht : Bool} {v : InputValues} {s : CompositeClosure}
    (h : (s.doAddClosure lim ct ob w n ht t v).1 = .ok ()) :
    (s.doAddClosure lim ct ob w n ht t v).2.numClosures = s.numClosures + 1 := by
  unfold CompositeClosure.doAddClosure at h ⊢
  by_cases hc : lim.maxEntries ≤ s.numClosures
  · simp [hc] at h
  · simp [hc]

theorem surfaceConvertFun_numClosures (lim : Limits) (id : ClosureID) (basis : Basis3)
    (p : ClosureParams) (sub : ClosureTree) (w : Color3) (s s2 : CompositeSurfaceClosure)
    (h : surfaceConvertFun lim id basis p sub w s = .ok s2) :
    s2.numClosures = s.numClosures + (if leafAddsEntry id p then 1 else 0) := by
  cases id
  case GlassID =>
    cases p <;>
      simp only [surfaceConvertFun, GlassClosure.convertClosure,
        CompositeClosure.addClosureNT] at h <;>
      first
      | (injection h with h2; subst h2; simp [leafAddsEntry])
      | (split at h <;> try split at h
         · obtain ⟨h1, h2⟩ := liftAdd_map_addIor_parts h
           rw [h2, doAddClosure_ok_numClosures h1]
           simp_all [leafAddsEntry]
         · obtain ⟨h1, h2⟩ := liftAdd_map_addIor_parts h
           rw [h2, doAddClosure_ok_numClosures h1]
           simp_all [leafAddsEntry]
         · exact absurd h (by simp))
  case GlossyID =>
    cases p <;>
      simp only [surfaceConvertFun, GlossyClosure.convertClosure,
        CompositeClosure.addClosureNT] at h <;>
      first
      | (injection h with h2; subst h2; simp [leafAddsEntry])
      | (split at h <;> try split at h
         · obtain ⟨h1, h2, _⟩ := liftAdd_ok_parts h
           rw [h2, doAddClosure_ok_numClosures h1]
           simp_all [leafAddsEntry]
         · obtain ⟨h1, h2, _⟩ := liftAdd_ok_parts h
           rw [h2, doAddClosure_ok_numClosures h1]
           simp_all [leafAddsEntry]
         · exact absurd h (by simp))
  case MetalID =>
    cases p <;>
      simp only [surfaceConvertFun, MetalClosure.convertClosure,
        CompositeClosure.addClosureNT] at h <;>
      first
      | (injection h with h2; subst h2; simp [leafAddsEntry])
      | (split at h <;> try split at h
         · obtain ⟨h1, h2, _⟩ := liftAdd_ok_parts h
           rw [h2, doAddClosure_ok_numClosures h1]
           simp_all [leafAddsEntry]
         · obtain ⟨h1, h2, _⟩ := liftAdd_ok_parts h
           rw [h2, doAddClosure_ok_numClosures h1]
           simp_all [leafAddsEntry]
         · exact absurd h (by simp))
  all_goals
    cases p <;>
      simp only [surfaceConvertFun, AshikhminShirleyClosure.convertClosure,
        DiffuseClosure.convertClosure, DisneyClosure.convertClosure,
        OrenNayarClosure.convertClosure, PhongClosure.convertClosure,
        ReflectionClosure.convertClosure, SheenClosure.convertClosure,
        TranslucentClosure.convertClosure, AlSurfaceLayerClosure.convertClosure,
        CompositeClosure.addClosureN, CompositeClosure.addClosureNT] at h <;>
      first
      | (injection h with h2; subst h2; simp [leafAddsEntry])
      | (obtain ⟨h1, h2, _⟩ := liftAdd_ok_parts h
         rw [h2, doAddClosure_ok_numClosures h1]
         simp [leafAddsEntry])

theorem processTree_leaves_count (lim : Limits) (basis : Basis3) (w0 : Color3) :
    ∀ (t : ClosureTree) (s s2 : CompositeSurfaceClosure),
      leavesOnly t = true →
      CompositeSurfaceClosure.processClosureTree lim t basis w0 s = .ok s2 →
      s2.numClosures = s.numClosures + producingLeafCount w0 t := by
  intro t
  induction t with
  | null =>
      intro s s2 _ h
      simp only [CompositeSurfaceClosure.processClosureTree, Except.ok.injEq] at h
      subst h
      simp [producingLeafCount]
  | mul cw child ih =>
      intro s s2 hleaves h
      simp [leavesOnly] at hleaves
  | add a b iha ihb =>
      intro s s2 hleaves h
      simp only [leavesOnly, Bool.and_eq_true] at hleaves
      simp only [CompositeSurfaceClosure.processClosureTree] at h
      cases hp : CompositeSurfaceClosure.processClosureTree lim a basis w0 s with
      | error e => rw [hp] at h; simp at h
      | ok s1 =>
          rw [hp] at h
          have e1 := iha s s1 hleaves.1 hp
          have e2 := ihb s1 s2 hleaves.2 h
          simp only [producingLeafCount]
          omega
  | comp id cw p sub ihsub =>
      intro s s2 _ h
      simp only [CompositeSurfaceClosure.processClosureTree] at h
      by_cases hl : 0 < luminance (w0 * cw)
      · rw [if_pos hl] at h
        rw [surfaceConvertFun_numClosures lim id basis p sub (w0 * cw) s s2 h]
        simp [producingLeafCount, hl]
      · rw [if_neg hl] at h
        injection h with h2
        subst h2
        simp [producingLeafCount, hl]

/-- C6 (amended): for a tree of leaves combined additively (no scale
nodes), a successful walk adds exactly one entry per leaf whose effective
weight has strictly positive luminance and whose closure id dispatches to an
entry-adding registered conversion; leaves with a no-op conversion
(unregistered for surfaces) add none, and a leaf whose weight metric is not
strictly positive never changes the composite at all. -/
theorem leavesOnly_entry_count (lim : Limits) (t : ClosureTree) (basis : Basis3)
    (w0 : Color3) (s s2 : CompositeSurfaceClosure)
    (hleaves : leavesOnly t = true)
    (h : CompositeSurfaceClosure.processClosureTree lim t basis w0 s = .ok s2) :
    s2.numClosures = s.numClosures + producingLeafCount w0 t ∧
    (∀ id cw p sub, ¬ 0 < luminance (w0 * cw) →
      CompositeSurfaceClosure.processClosureTree lim (.comp id cw p sub) basis w0 s = .ok s) :=
  ⟨processTree_leaves_count lim basis w0 t s s2 hleaves h,
    fun id cw p sub hneg => by
      simp [CompositeSurfaceClosure.processClosureTree, hneg]⟩

/-- C6 counterexample: a single-leaf tree whose leaf has weight metric `1`
(strictly positive) but a no-op surface conversion (`transparent` installs
none) produces zero entries, where the claim as stated predicts one entry
per positive-metric leaf. -/
theorem leavesOnly_entry_count_counterexample :
    leavesOnly (.comp .TransparentID (Color3.const 1) .emptyParams .null) = true ∧
    positiveMetricLeafCount (Color3.const 1)
      (.comp .TransparentID (Color3.const 1) .emptyParams .null) = 1 ∧
    CompositeSurfaceClosure.processClosureTree limEx
      (.comp .TransparentID (Color3.const 1) .emptyParams .null) basisEx (Color3.const 1)
      CompositeSurfaceClosure.empty = .ok CompositeSurfaceClosure.empty ∧
    CompositeSurfaceClosure.empty.numClosures = 0 := by
  refine ⟨rfl, ?_, ?_, rfl⟩
  · norm_num [positiveMetricLeafCount, luminance, Color3.const, Color3.mul_def]
  · norm_num [CompositeSurfaceClosure.processClosureTree, surfaceConvertFun, luminance,
      Color3.const, Color3.mul_def]

/-- Witness for `leavesOnly_entry_count` at `c6Tree`: two positive-weight
leaves, of which exactly one has an entry-adding conversion, produce one
entry. -/
theorem leavesOnly_entry_count_witness :
    c6State.numClosures =
      CompositeSurfaceClosure.empty.numClosures +
        producingLeafCount (Color3.const 1) c6Tree :=
  (leavesOnly_entry_count limEx c6Tree basisEx (Color3.const 1)
    CompositeSurfaceClosure.empty c6State rfl
    (by norm_num [c6Tree, c6State, CompositeSurfaceClosure.processClosureTree,
      surfaceConvertFun, DiffuseClosure.convertClosure, CompositeSurfaceClosure.liftAdd,
      CompositeClosure.addClosureN, CompositeClosure.doAddClosure, luminance,
      Color3.mul_def, Color3.const, computeClosureShadingBasisN, squareNorm, nEx,
      basisEx, limEx, alignUp, InputValues.kind, CompositeSurfaceClosure.empty,
      CompositeClosure.empty])).1

/-- Unfolding of the `CompositeSurfaceClosure` constructor once the tree
walk result is known. -/
theorem construct_eq (lim : Limits) (basis : Basis3) (ci : ClosureTree)
    (s1 : CompositeSurfaceClosure)
    (hp : CompositeSurfaceClosure.processClosureTree lim ci basis (Color3.const 1)
      CompositeSurfaceClosure.empty = .ok s1) :
    CompositeSurfaceClosure.construct lim basis ci =
      (if s1.numIors = 0 then
        .ok { s1 with toCompositeClosure := s1.toCompositeClosure.computeCdf,
                      numIors := 1, iors := [1] }
       else if 1 < s1.numIors then
        .ok { s1 with toCompositeClosure := s1.toCompositeClosure.computeCdf,
                      iorCdf := buildIorCdf s1.iorCdf }
       else
        .ok { s1 with toCompositeClosure := s1.toCompositeClosure.computeCdf }) := by
  unfold CompositeSurfaceClosure.construct
  rw [hp]

/-- C7: a successfully constructed surface composite always has at least one
IOR entry; when the walk added none, construction synthesizes exactly one
with `ior = 1` chosen with certainty (so its weight in the one-entry IOR
distribution is `1`); when the walk added two or more, their cdf is built by
the same prefix-sum, normalize, pin-last-to-`1` procedure as the entry cdf. -/
theorem surface_construct_iors (lim : Limits) (basis : Basis3) (ci : ClosureTree)
    (st : CompositeSurfaceClosure)
    (h : CompositeSurfaceClosure.construct lim basis ci = .ok st) :
    1 ≤ st.numIors ∧
    (∀ s1, CompositeSurfaceClosure.processClosureTree lim ci basis (Color3.const 1)
        CompositeSurfaceClosure.empty = .ok s1 →
      (s1.numIors = 0 → st.numIors = 1 ∧ st.iors = [1] ∧ ∀ u, st.chooseIor u = 1) ∧
      (2 ≤ s1.numIors → st.iors = s1.iors ∧
        st.iorCdf =
          (prefixSums s1.iorCdf).dropLast.map (fun c => c * (1 / s1.iorCdf.sum)) ++ [1]) ∧
      (s1.numIors = 1 → st.iors = s1.iors ∧ st.iorCdf = s1.iorCdf)) := by
  cases hp : CompositeSurfaceClosure.processClosureTree lim ci basis (Color3.const 1)
      CompositeSurfaceClosure.empty with
  | error e =>
      unfold CompositeSurfaceClosure.construct at h
      rw [hp] at h
      exact absurd h (by simp)
  | ok s1 =>
      rw [construct_eq lim basis ci s1 hp] at h
      split at h
      · -- zero IOR entries: synthesize the vacuum default
        rename_i h0
        injection h with h2
        subst h2
        refine ⟨by norm_num, ?_⟩
        intro s1' hp'
        injection hp' with he
        subst he
        exact ⟨fun _ => ⟨rfl, rfl, fun u => by simp [CompositeSurfaceClosure.chooseIor]⟩,
          fun hge => by omega, fun h1 => by omega⟩
      · split at h
        · -- two or more IOR entries: build the IOR CDF in place
          rename_i hne0 hgt1
          injection h with h2
          subst h2
          constructor
          · show 1 ≤ s1.numIors
            omega
          · intro s1' hp'
            injection hp' with he
            subst he
            exact ⟨fun h0 => absurd h0 hne0, fun _ => ⟨rfl, by simp [buildIorCdf]⟩,
              fun h1 => by omega⟩
        · -- exactly one IOR entry: left untouched
          rename_i hne0 hle1
          injection h with h2
          subst h2
          constructor
          · show 1 ≤ s1.numIors
            omega
          · intro s1' hp'
            injection hp' with he
            subst he
            exact ⟨fun h0 => absurd h0 hne0, fun hge => by omega, fun _ => ⟨rfl, rfl⟩⟩

/-- Witness for `surface_construct_iors`: a tree with zero refractive
contributions yields exactly one IOR entry equal to `1`, chosen regardless
of the sample. -/
theorem surface_construct_iors_witness :
    1 ≤ vacuumSurface.numIors ∧ vacuumSurface.numIors = 1 ∧ vacuumSurface.iors = [1] ∧
    vacuumSurface.chooseIor (7/10) = 1 := by
  have h := surface_construct_iors limEx basisEx .null vacuumSurface rfl
  have h2 := (h.2 CompositeSurfaceClosure.empty rfl).1 rfl
  exact ⟨h.1, h2.1, h2.2.1, h2.2.2 (7/10)⟩

/-- C10: a `diffuse` leaf is stored with closure type `OrenNayarID`
(reflectance `1`, multiplier `1`, roughness `0`), a `phong` leaf as
`AshikhminShirleyID`, and a `reflection` leaf as `GlossyBeckmannID` with
roughness `0` — the stored closure id can differ from the id of the leaf
that produced the entry. -/
theorem leaf_conversion_retags (lim : Limits) (basis : Basis3) (w : Color3) (N : Vector3)
    (exponent ior : ℚ) (sub : ClosureTree) (s : CompositeSurfaceClosure)
    (hc : s.numClosures < lim.maxEntries) :
    (surfaceConvertFun lim .DiffuseID basis (.diffuse N) sub w s).map
        (fun s2 => (s2.closureTypes, s2.inputValues)) =
      .ok (s.closureTypes ++ [.OrenNayarID],
           s.inputValues ++ [.orenNayar (Color3.const 1) 1 0]) ∧
    (surfaceConvertFun lim .PhongID basis (.phong N exponent) sub w s).map
        (fun s2 => (s2.closureTypes, s2.inputValues)) =
      .ok (s.closureTypes ++ [.AshikhminShirleyID],
           s.inputValues ++ [.ashikhmin (Color3.const 1) 1 (Color3.const 1) 1
             (max exponent (1/100)) (max exponent (1/100)) 1]) ∧
    (surfaceConvertFun lim .ReflectionID basis (.reflection N ior) sub w s).map
        (fun s2 => (s2.closureTypes, s2.inputValues)) =
      .ok (s.closureTypes ++ [.GlossyBeckmannID],
           s.inputValues ++ [.glossy (Color3.const 1) 1 0 0 (max ior (1/1000))]) := by
  have hcap : ¬ lim.maxEntries ≤ s.numClosures := by omega
  refine ⟨?_, ?_, ?_⟩ <;>
    simp [surfaceConvertFun, DiffuseClosure.convertClosure, PhongClosure.convertClosure,
      ReflectionClosure.convertClosure, CompositeSurfaceClosure.liftAdd,
      CompositeClosure.addClosureN, CompositeClosure.doAddClosure, hcap, Except.map]

/-- Witness for `leaf_conversion_retags` on the empty composite. -/
theorem leaf_conversion_retags_witness :
    (surfaceConvertFun limEx .DiffuseID basisEx (.diffuse nEx) .null (Color3.const 1)
        CompositeSurfaceClosure.empty).map
        (fun s2 => (s2.closureTypes, s2.inputValues)) =
      .ok (CompositeSurfaceClosure.empty.closureTypes ++ [.OrenNayarID],
           CompositeSurfaceClosure.empty.inputValues ++ [.orenNayar (Color3.const 1) 1 0]) ∧
    (surfaceConvertFun limEx .PhongID basisEx (.phong nEx 10) .null (Color3.const 1)
        CompositeSurfaceClosure.empty).map
        (fun s2 => (s2.closureTypes, s2.inputValues)) =
      .ok (CompositeSurfaceClosure.empty.closureTypes ++ [.AshikhminShirleyID],
           CompositeSurfaceClosure.empty.inputValues ++ [.ashikhmin (Color3.const 1) 1
             (Color3.const 1) 1 (max (10 : ℚ) (1/100)) (max (10 : ℚ) (1/100)) 1]) ∧
    (surfaceConvertFun limEx .ReflectionID basisEx (.reflection nEx (3/2)) .null
        (Color3.const 1) CompositeSurfaceClosure.empty).map
        (fun s2 => (s2.closureTypes, s2.inputValues)) =
      .ok (CompositeSurfaceClosure.empty.closureTypes ++ [.GlossyBeckmannID],
           CompositeSurfaceClosure.empty.inputValues ++ [.glossy (Color3.const 1) 1 0 0
             (max (3/2 : ℚ) (1/1000))]) :=
  leaf_conversion_retags limEx basisEx (Color3.const 1) nEx 10 (3/2) .null
    CompositeSurfaceClosure.empty
    (by norm_num [limEx, CompositeSurfaceClosure.empty, CompositeClosure.empty])

end Renderer
